import Mathlib

/-!
Shallow embedding of the query-orchestrator Azure Function in
src/function_app.py. The two outbound language-model calls and the one
search-index call are external collaborators; they are modelled by their
results, packaged in the Collabs structure: each call either raises
(Except.error with the exception message) or returns normally. A normal
language-model return is the optional content field of
choices[0].message (none models an absent field, read by the code as
message.get with a default). A normal search return is the finite list of
records yielded by the result stream, in stream order. The HTTP layer is
modelled by the parsed request body (Except.error when req.get_json
raises, otherwise the optional value of the query field) and by the pair
of status code and body text the handler returns. The Trace component
records how many language-model and search calls the run performed and
the filter expression passed to the search index, so that claims about
calls never being made can be stated.
-/

/-- Python str.split on the fixed two-character separator of comma followed
by space, on character lists: scanning left to right, each occurrence of the
separator ends the current piece. Returns the first piece and the remaining
pieces, so that the full result is always a nonempty list; in particular the
empty string splits into one empty piece, as in Python. -/
def pySplitAux : List Char → List Char × List (List Char)
  | [] => ([], [])
  | ',' :: ' ' :: rest =>
      let p := pySplitAux rest
      ([], p.1 :: p.2)
  | c :: rest =>
      let p := pySplitAux rest
      (c :: p.1, p.2)

/-- Python text.split on the literal separator of comma followed by space,
assembled from pySplitAux. -/
def pySplitCommaSpace (l : List Char) : List (List Char) :=
  (pySplitAux l).1 :: (pySplitAux l).2

/-- Embedding of extract_titles (src/function_app.py lines 38-55). The
outbound chat-completions call is modelled by its result: content is the
optional content field of choices[0].message. The code reads the field with
a default of the empty string and splits the text on the literal separator
of comma followed by space. -/
def extract_titles (content : Option String) : List String :=
  (pySplitCommaSpace (content.getD "").toList).map fun cs => String.mk cs

/-- The single-quote character as a one-character string, used by the filter
expression of line 86. -/
def squo : String := Char.toString (Char.ofNat 39)

/-- Python sep.join(pieces). -/
def pyJoin (sep : String) : List String → String
  | [] => ""
  | [s] => s
  | s :: rest => s ++ sep ++ pyJoin sep rest

/-- Embedding of line 86: the filter expression joins one equality piece per
title, in list order, with no de-duplication and no escaping inside the
title text. -/
def buildFilter (titles : List String) : String :=
  pyJoin " or " (titles.map fun t => "title eq " ++ squo ++ t ++ squo)

/-- One record yielded by the search stream: the selected title and content
fields. -/
structure SearchResult where
  title : String
  content : String

/-- One formatted document block of line 89. -/
def block (r : SearchResult) : String :=
  "Title: " ++ r.title ++ "\nContent: " ++ r.content

/-- Embedding of lines 88-90: the newline join of the formatted blocks, in
stream order. -/
def formatResults (rs : List SearchResult) : String :=
  pyJoin "\n" (rs.map block)

/-- Outcome of the conditional-retrieval block: the formatted results (or
the propagated exception message), whether the search index was called, and
the filter expression passed to it. -/
structure RetrievalOutcome where
  result : Except String String
  searchCalled : Bool
  filterSent : Option String

/-- Embedding of lines 84-92: when the title list is empty the search index
is not called and the block yields the empty string; otherwise the filter is
built, the search call is made, and an empty join is replaced by the
sentinel text. -/
def retrieveStep (titles : List String) (search : Except String (List SearchResult)) :
    RetrievalOutcome :=
  match titles with
  | [] => ⟨.ok "", false, none⟩
  | _ :: _ =>
    let filter_query := buildFilter titles
    match search with
    | .error e => ⟨.error e, true, some filter_query⟩
    | .ok results =>
      let formatted_results := formatResults results
      ⟨.ok (if formatted_results = "" then "No relevant content found." else formatted_results),
        true, some filter_query⟩

/-- Lowercase hexadecimal digit. -/
def hexDigit (n : Nat) : Char :=
  if n < 10 then Char.ofNat (48 + n) else Char.ofNat (87 + n)

/-- Four lowercase hexadecimal digits. -/
def hex4 (n : Nat) : List Char :=
  [hexDigit (n / 4096 % 16), hexDigit (n / 256 % 16), hexDigit (n / 16 % 16), hexDigit (n % 16)]

/-- JSON string escaping of one character, following json.dumps with its
default ensure_ascii setting: short escapes for quote, backslash and the
usual control characters, u-escapes for other control characters and for
everything outside printable ASCII, with surrogate pairs beyond the basic
plane. -/
def jsonEscapeChar (ch : Char) : List Char :=
  let n := ch.toNat
  let bs := Char.ofNat 92
  if n = 34 then [bs, Char.ofNat 34]
  else if n = 92 then [bs, bs]
  else if n = 8 then [bs, 'b']
  else if n = 9 then [bs, 't']
  else if n = 10 then [bs, 'n']
  else if n = 12 then [bs, 'f']
  else if n = 13 then [bs, 'r']
  else if n < 32 then bs :: 'u' :: hex4 n
  else if n < 127 then [ch]
  else if n < 65536 then bs :: 'u' :: hex4 n
  else (bs :: 'u' :: hex4 (55296 + (n - 65536) / 1024)) ++
    (bs :: 'u' :: hex4 (56320 + (n - 65536) % 1024))

/-- JSON string escaping of a whole string. -/
def jsonEscape (s : String) : String :=
  String.mk ((s.toList.map jsonEscapeChar).flatten)

/-- json.dumps of the response dict of lines 103-107: the two keys in
insertion order, with the default separators. -/
def dumps (openai_answer retrieved_content : String) : String :=
  "\x7b\"openai_answer\": \"" ++ jsonEscape openai_answer ++
    "\", \"retrieved_content\": \"" ++ jsonEscape retrieved_content ++ "\"\x7d"

/-- Behavior of the external collaborators during one request: the result of
the title-extraction chat call, of the search call, and of the
answer-generation chat call. An error value models the call raising an
exception with that message. -/
structure Collabs where
  lm1 : Except String (Option String)
  search : Except String (List SearchResult)
  lm2 : Except String (Option String)

/-- The func.HttpResponse pair the handler builds: status code and body
text. -/
structure HttpResponse where
  status_code : Nat
  body : String

/-- Trace of one run: how many chat calls and search calls were issued, and
the filter expression passed to the search index, if any. -/
structure Trace where
  lmCalls : Nat
  searchCalls : Nat
  searchFilter : Option String

/-- Embedding of handle_query_handler (src/function_app.py lines 59-110).
The request body is Except.error when req.get_json raises, otherwise the
optional value of the query field; body.get with a default of the empty
string makes a missing field and an empty field indistinguishable, and both
hit the 400 branch. Every exception of the try block is caught at line 108
and becomes a 500 response whose body is the text Error: followed by the
message; this is modelled by each error value short-circuiting to that
response. -/
def handle_query_handler (body : Except String (Option String)) (c : Collabs) :
    HttpResponse × Trace :=
  match body with
  | .error e => (⟨500, "Error: " ++ e⟩, ⟨0, 0, none⟩)
  | .ok b =>
    let query := b.getD ""
    if query = "" then (⟨400, "No query provided."⟩, ⟨0, 0, none⟩)
    else
      match c.lm1 with
      | .error e => (⟨500, "Error: " ++ e⟩, ⟨1, 0, none⟩)
      | .ok content1 =>
        let titles := extract_titles content1
        let ro := retrieveStep titles c.search
        let sc : Nat := if ro.searchCalled then 1 else 0
        match ro.result with
        | .error e => (⟨500, "Error: " ++ e⟩, ⟨1, sc, ro.filterSent⟩)
        | .ok formatted_results =>
          match c.lm2 with
          | .error e => (⟨500, "Error: " ++ e⟩, ⟨2, sc, ro.filterSent⟩)
          | .ok content2 =>
            let openai_answer := content2.getD "No answer generated."
            (⟨200, dumps openai_answer formatted_results⟩, ⟨2, sc, ro.filterSent⟩)


theorem pySplit_ne_nil (l : List Char) : pySplitCommaSpace l ≠ [] := by
  simp [pySplitCommaSpace]

theorem extract_titles_ne_nil (content : Option String) : extract_titles content ≠ [] := by
  simp [extract_titles, pySplitCommaSpace]

theorem pyJoin_cons (sep s : String) (l : List String) (h : l ≠ []) :
    pyJoin sep (s :: l) = s ++ sep ++ pyJoin sep l := by
  match l with
  | a :: t => rfl

theorem le_length_pyJoin (sep s : String) (l : List String) :
    s.length ≤ (pyJoin sep (s :: l)).length := by
  cases l with
  | nil => simp [pyJoin]
  | cons a t =>
    simp [pyJoin, String.length_append]
    omega

theorem block_ne_empty (r : SearchResult) : block r ≠ "" := by
  intro h
  have h0 : (block r).length = 0 := by rw [h]; rfl
  have h1 : ("Title: " : String).length = 7 := rfl
  simp [block, String.length_append, h1] at h0

theorem formatResults_ne_empty (r : SearchResult) (t : List SearchResult) :
    formatResults (r :: t) ≠ "" := by
  intro h
  have hle : (block r).length ≤ (formatResults (r :: t)).length := by
    simpa [formatResults] using le_length_pyJoin "\n" (block r) (t.map block)
  rw [h] at hle
  have h1 : ("Title: " : String).length = 7 := rfl
  simp [block, String.length_append, h1] at hle

/-- Claim C1, counterexample: with the content field absent from the
title-extraction response, extract_titles does not return the empty list
(it returns the one-element list holding the empty string). -/
theorem extract_titles_none_ne_nil : extract_titles none ≠ [] := by decide

/-- Claim C1 (amended): when the title-extraction response carries no
content field, or carries empty content, the resulting title list is the
one-element list holding the empty string — a nonempty list, not the empty
list. The request is still not aborted at this step: with the remaining
collaborators succeeding, the run completes with status 200. Parsing is
exactly the split of the returned text on the literal comma-space
separator. -/
theorem extract_titles_missing_content_singleton :
    extract_titles none = [""] ∧ extract_titles (some "") = [""] ∧
    (∀ (s : String), extract_titles (some s) =
      (pySplitCommaSpace s.toList).map fun cs => String.mk cs) ∧
    ∀ (q : String) (rs : List SearchResult) (ans : Option String), q ≠ "" →
      (handle_query_handler (.ok (some q)) ⟨.ok none, .ok rs, .ok ans⟩).1.status_code = 200 := by
  refine ⟨by decide, by decide, fun s => rfl, ?_⟩
  intro q rs ans hq
  have ht : extract_titles none = [""] := by decide
  simp [handle_query_handler, hq, ht, retrieveStep]

/-- Witness for claim C1. -/
theorem extract_titles_missing_content_singleton_witness :
    (handle_query_handler (.ok (some "q"))
      ⟨.ok none, .ok [], .ok (some "a")⟩).1.status_code = 200 :=
  extract_titles_missing_content_singleton.2.2.2 "q" [] (some "a") (by decide)

/-- Claim C2: when the title list is empty, the conditional-retrieval block
does not call the search index at all and yields the empty string as
retrieved content — never the sentinel text. -/
theorem retrieve_skip_on_empty_titles (titles : List String)
    (s : Except String (List SearchResult)) (h : titles = []) :
    retrieveStep titles s = ⟨.ok "", false, none⟩ := by
  subst h
  rfl

/-- Witness for claim C2. -/
theorem retrieve_skip_on_empty_titles_witness :
    retrieveStep [] (.ok []) = ⟨.ok "", false, none⟩ :=
  retrieve_skip_on_empty_titles [] (.ok []) rfl

/-- Claim C3: for every valid query whose search call returns a nonempty
record list, the 200 response carries as retrieved content exactly the
formatted blocks of the returned records — one Title line and one Content
line per record — joined by single newlines, in the order the search stream
returned them (the sentinel is not substituted). -/
theorem retrieved_content_joins_blocks_in_order
    (q : String) (c : Collabs) (content1 content2 : Option String)
    (rs : List SearchResult) (hq : q ≠ "") (h1 : c.lm1 = .ok content1)
    (h2 : c.search = .ok rs) (hrs : rs ≠ []) (h3 : c.lm2 = .ok content2) :
    (handle_query_handler (.ok (some q)) c).1 =
      ⟨200, dumps (content2.getD "No answer generated.") (formatResults rs)⟩ ∧
    formatResults rs =
      pyJoin "\n" (rs.map fun r => "Title: " ++ r.title ++ "\nContent: " ++ r.content) := by
  obtain ⟨lm1, search, lm2⟩ := c
  subst h1 h2 h3
  refine ⟨?_, rfl⟩
  have hf : formatResults rs ≠ "" := by
    match rs, hrs with
    | r :: t, _ => exact formatResults_ne_empty r t
  cases hE : extract_titles content1 with
  | nil => exact absurd hE (extract_titles_ne_nil _)
  | cons t ts => simp [handle_query_handler, hq, hE, retrieveStep, hf]

/-- Witness for claim C3. -/
theorem retrieved_content_joins_blocks_in_order_witness :
    (handle_query_handler (.ok (some "q"))
      ⟨.ok none, .ok [⟨"myreport.pdf", "Q3 sales up"⟩], .ok (some "a")⟩).1 =
      ⟨200, dumps "a" (formatResults [⟨"myreport.pdf", "Q3 sales up"⟩])⟩ :=
  (retrieved_content_joins_blocks_in_order "q" _ none (some "a")
    [⟨"myreport.pdf", "Q3 sales up"⟩] (by decide) rfl rfl
    (List.cons_ne_nil _ _) rfl).1

/-- Claim C4: for every valid query whose search call returns an empty
record stream, the 200 response carries as retrieved content exactly the
sentinel text. -/
theorem retrieved_content_sentinel_on_zero_results
    (q : String) (c : Collabs) (content1 content2 : Option String)
    (hq : q ≠ "") (h1 : c.lm1 = .ok content1) (h2 : c.search = .ok [])
    (h3 : c.lm2 = .ok content2) :
    (handle_query_handler (.ok (some q)) c).1 =
      ⟨200, dumps (content2.getD "No answer generated.") "No relevant content found."⟩ := by
  obtain ⟨lm1, search, lm2⟩ := c
  subst h1 h2 h3
  cases hE : extract_titles content1 with
  | nil => exact absurd hE (extract_titles_ne_nil _)
  | cons t ts => simp [handle_query_handler, hq, hE, retrieveStep, formatResults, pyJoin]

/-- Witness for claim C4. -/
theorem retrieved_content_sentinel_on_zero_results_witness :
    (handle_query_handler (.ok (some "q")) ⟨.ok none, .ok [], .ok (some "a")⟩).1 =
      ⟨200, dumps "a" "No relevant content found."⟩ :=
  retrieved_content_sentinel_on_zero_results "q" _ none (some "a") (by decide) rfl rfl rfl

/-- Claim C5: when the parsed body carries no query field, or an empty one,
the handler returns status 400 with the exact body text and issues no
language-model call and no search call. -/
theorem missing_query_returns_400_no_calls (b : Option String) (c : Collabs)
    (h : b.getD "" = "") :
    handle_query_handler (.ok b) c = (⟨400, "No query provided."⟩, ⟨0, 0, none⟩) := by
  simp [handle_query_handler, h]

/-- Witness for claim C5. -/
theorem missing_query_returns_400_no_calls_witness :
    handle_query_handler (.ok none) ⟨.ok none, .ok [], .ok none⟩ =
      (⟨400, "No query provided."⟩, ⟨0, 0, none⟩) :=
  missing_query_returns_400_no_calls none _ rfl

/-- Claim C6: whichever step of the try block raises — body parsing, the
first chat call, the search call, or the second chat call — the handler
returns status 500 with body exactly the text Error: followed by the
message; no collaborator is called more than once (no retry) and no 200
payload is produced. -/
theorem exception_returns_500_error_body
    (c : Collabs) (q m : String) (content1 : Option String)
    (rs : List SearchResult) :
    (handle_query_handler (.error m) c = (⟨500, "Error: " ++ m⟩, ⟨0, 0, none⟩)) ∧
    (q ≠ "" → c.lm1 = .error m →
      handle_query_handler (.ok (some q)) c = (⟨500, "Error: " ++ m⟩, ⟨1, 0, none⟩)) ∧
    (q ≠ "" → c.lm1 = .ok content1 → c.search = .error m →
      (handle_query_handler (.ok (some q)) c).1 = ⟨500, "Error: " ++ m⟩) ∧
    (q ≠ "" → c.lm1 = .ok content1 → c.search = .ok rs → c.lm2 = .error m →
      (handle_query_handler (.ok (some q)) c).1 = ⟨500, "Error: " ++ m⟩) ∧
    ((handle_query_handler (.ok (some q)) c).2.lmCalls ≤ 2 ∧
      (handle_query_handler (.ok (some q)) c).2.searchCalls ≤ 1) := by
  obtain ⟨lm1, search, lm2⟩ := c
  refine ⟨rfl, ?_, ?_, ?_, ?_⟩
  · intro hq h1
    subst h1
    simp [handle_query_handler, hq]
  · intro hq h1 h2
    subst h1 h2
    cases hE : extract_titles content1 with
    | nil => exact absurd hE (extract_titles_ne_nil _)
    | cons t ts => simp [handle_query_handler, hq, hE, retrieveStep]
  · intro hq h1 h2 h3
    subst h1 h2 h3
    cases hE : extract_titles content1 with
    | nil => exact absurd hE (extract_titles_ne_nil _)
    | cons t ts => simp [handle_query_handler, hq, hE, retrieveStep]
  · by_cases hq : q = ""
    · simp [handle_query_handler, hq]
    · cases lm1 with
      | error e => simp [handle_query_handler, hq]
      | ok c1 =>
        cases hE : extract_titles c1 with
        | nil => exact absurd hE (extract_titles_ne_nil _)
        | cons t ts =>
          cases search with
          | error e => simp [handle_query_handler, hq, hE, retrieveStep]
          | ok rs2 =>
            cases lm2 with
            | error e => simp [handle_query_handler, hq, hE, retrieveStep]
            | ok c2 => simp [handle_query_handler, hq, hE, retrieveStep]

/-- Witness for claim C6: each failing step exercised at a concrete input. -/
theorem exception_returns_500_error_body_witness :
    (handle_query_handler (.error "boom") ⟨.ok none, .ok [], .ok none⟩ =
      (⟨500, "Error: " ++ "boom"⟩, ⟨0, 0, none⟩)) ∧
    (handle_query_handler (.ok (some "q")) ⟨.error "boom", .ok [], .ok none⟩ =
      (⟨500, "Error: " ++ "boom"⟩, ⟨1, 0, none⟩)) ∧
    ((handle_query_handler (.ok (some "q")) ⟨.ok none, .error "boom", .ok none⟩).1 =
      ⟨500, "Error: " ++ "boom"⟩) ∧
    ((handle_query_handler (.ok (some "q")) ⟨.ok none, .ok [], .error "boom"⟩).1 =
      ⟨500, "Error: " ++ "boom"⟩) :=
  ⟨(exception_returns_500_error_body ⟨.ok none, .ok [], .ok none⟩ "q" "boom" none []).1,
   (exception_returns_500_error_body ⟨.error "boom", .ok [], .ok none⟩ "q" "boom"
      none []).2.1 (by decide) rfl,
   (exception_returns_500_error_body ⟨.ok none, .error "boom", .ok none⟩ "q" "boom"
      none []).2.2.1 (by decide) rfl rfl,
   (exception_returns_500_error_body ⟨.ok none, .ok [], .error "boom"⟩ "q" "boom"
      none []).2.2.2.1 (by decide) rfl rfl rfl⟩

/-- Claim C7: for every valid query, the filter expression handed to the
search index is exactly the or-join of one equality piece per extracted
title, in list order; the join satisfies the expected one-element and cons
equations, so titles are neither de-duplicated nor escaped — each is pasted
between bare single quotes. -/
theorem search_filter_is_disjunction_of_title_eq
    (q : String) (c : Collabs) (content1 : Option String)
    (hq : q ≠ "") (h1 : c.lm1 = .ok content1) :
    (handle_query_handler (.ok (some q)) c).2.searchFilter =
      some (buildFilter (extract_titles content1)) ∧
    (∀ t : String, buildFilter [t] = "title eq " ++ squo ++ t ++ squo) ∧
    (∀ (t : String) (ts : List String), ts ≠ [] →
      buildFilter (t :: ts) =
        ("title eq " ++ squo ++ t ++ squo) ++ " or " ++ buildFilter ts) := by
  obtain ⟨lm1, search, lm2⟩ := c
  subst h1
  refine ⟨?_, fun t => rfl, ?_⟩
  · cases hE : extract_titles content1 with
    | nil => exact absurd hE (extract_titles_ne_nil _)
    | cons t ts =>
      cases search with
      | error e => simp [handle_query_handler, hq, hE, retrieveStep]
      | ok rs =>
        cases lm2 with
        | error e => simp [handle_query_handler, hq, hE, retrieveStep]
        | ok c2 => simp [handle_query_handler, hq, hE, retrieveStep]
  · intro t ts h
    have hm : ts.map (fun t => "title eq " ++ squo ++ t ++ squo) ≠ [] := by
      simpa using h
    simp only [buildFilter, List.map_cons]
    rw [pyJoin_cons _ _ _ hm]

/-- Witness for claim C7. -/
theorem search_filter_is_disjunction_of_title_eq_witness :
    (handle_query_handler (.ok (some "q"))
      ⟨.ok (some "a, b"), .ok [], .ok none⟩).2.searchFilter =
      some (buildFilter (extract_titles (some "a, b"))) ∧
    buildFilter ["a", "b"] =
      ("title eq " ++ squo ++ "a" ++ squo) ++ " or " ++ buildFilter ["b"] :=
  ⟨(search_filter_is_disjunction_of_title_eq "q" ⟨.ok (some "a, b"), .ok [], .ok none⟩
      (some "a, b") (by decide) rfl).1,
   (search_filter_is_disjunction_of_title_eq "q" ⟨.ok (some "a, b"), .ok [], .ok none⟩
      (some "a, b") (by decide) rfl).2.2 "a" ["b"] (List.cons_ne_nil _ _)⟩

/-- Claim C8: when the answer-generation response carries no content field,
the substituted answer is exactly the fallback text and the request still
completes with status 200. -/
theorem answer_fallback_on_missing_content
    (q : String) (c : Collabs) (content1 : Option String) (rs : List SearchResult)
    (hq : q ≠ "") (h1 : c.lm1 = .ok content1) (h2 : c.search = .ok rs)
    (h3 : c.lm2 = .ok none) :
    (handle_query_handler (.ok (some q)) c).1.status_code = 200 ∧
    ∃ rc, (handle_query_handler (.ok (some q)) c).1.body =
      dumps "No answer generated." rc := by
  obtain ⟨lm1, search, lm2⟩ := c
  subst h1 h2 h3
  cases hE : extract_titles content1 with
  | nil => exact absurd hE (extract_titles_ne_nil _)
  | cons t ts =>
    by_cases hf : formatResults rs = ""
    · exact ⟨by simp [handle_query_handler, hq, hE, retrieveStep, hf],
        ⟨"No relevant content found.",
          by simp [handle_query_handler, hq, hE, retrieveStep, hf]⟩⟩
    · exact ⟨by simp [handle_query_handler, hq, hE, retrieveStep, hf],
        ⟨formatResults rs,
          by simp [handle_query_handler, hq, hE, retrieveStep, hf]⟩⟩

/-- Witness for claim C8. -/
theorem answer_fallback_on_missing_content_witness :
    (handle_query_handler (.ok (some "q"))
      ⟨.ok none, .ok [], .ok none⟩).1.status_code = 200 ∧
    ∃ rc, (handle_query_handler (.ok (some "q"))
      ⟨.ok none, .ok [], .ok none⟩).1.body = dumps "No answer generated." rc :=
  answer_fallback_on_missing_content "q" _ none [] (by decide) rfl rfl rfl

/-- Claim C9: the handler is a pure function of the parsed request body and
the collaborator behavior: two runs on identical bodies against the same
deterministic collaborators produce identical responses; no state survives a
run in the embedding, which mutates no module-level binding, matching the
source, whose handler assigns only request-local names. -/
theorem handler_deterministic (b1 b2 : Except String (Option String))
    (c : Collabs) (h : b1 = b2) :
    handle_query_handler b1 c = handle_query_handler b2 c := by
  rw [h]

/-- Witness for claim C9. -/
theorem handler_deterministic_witness :
    handle_query_handler (.ok (some "q")) ⟨.ok none, .ok [], .ok none⟩ =
      handle_query_handler (.ok (some "q")) ⟨.ok none, .ok [], .ok none⟩ :=
  handler_deterministic (.ok (some "q")) (.ok (some "q")) ⟨.ok none, .ok [], .ok none⟩ rfl

/-- Claim C10: splitting any returned text on the comma-space separator
yields at least one piece, so extract_titles never returns the empty list;
consequently every request that passes query validation and whose
title-extraction call returns normally does query the search index — the
skip-retrieval branch is never taken. -/
theorem search_always_called_after_validation
    (content : Option String) (q : String) (c : Collabs) (content1 : Option String) :
    extract_titles content ≠ [] ∧
    (q ≠ "" → c.lm1 = .ok content1 →
      (handle_query_handler (.ok (some q)) c).2.searchCalls = 1 ∧
      (retrieveStep (extract_titles content1) c.search).searchCalled = true) := by
  refine ⟨extract_titles_ne_nil content, ?_⟩
  intro hq h1
  obtain ⟨lm1, search, lm2⟩ := c
  subst h1
  cases hE : extract_titles content1 with
  | nil => exact absurd hE (extract_titles_ne_nil _)
  | cons t ts =>
    constructor
    · cases search with
      | error e => simp [handle_query_handler, hq, hE, retrieveStep]
      | ok rs =>
        cases lm2 with
        | error e => simp [handle_query_handler, hq, hE, retrieveStep]
        | ok c2 => simp [handle_query_handler, hq, hE, retrieveStep]
    · cases search <;> rfl

/-- Witness for claim C10. -/
theorem search_always_called_after_validation_witness :
    extract_titles none ≠ [] ∧
    (handle_query_handler (.ok (some "q")) ⟨.ok none, .ok [], .ok none⟩).2.searchCalls = 1 ∧
    (retrieveStep (extract_titles none) (Except.ok [])).searchCalled = true :=
  ⟨(search_always_called_after_validation none "q" ⟨.ok none, .ok [], .ok none⟩ none).1,
   (search_always_called_after_validation none "q" ⟨.ok none, .ok [], .ok none⟩ none).2
     (by decide) rfl⟩
